import Mathlib

/-!
Shallow embedding of the `worktree-setup` package (TypeScript sources
`src/setup.ts`, `src/git.ts`, `src/types.ts`) for checking its
natural-language specification.

Modelling conventions:
* Filesystem paths are component lists (`Path := List String`); `path.join`
  is list append, `path.dirname` is `dropLast`, `path.basename` is `getLast?`.
  A relative config entry (a TypeScript string such as `".vscode/settings.json"`)
  is converted to components with `splitPath` (split on `/`).
* The filesystem is an association list from paths to nodes; updates push a
  new binding in front (`setFS`), so entries are never deleted, mirroring the
  fact that the code only ever creates or appends to files.
* External effects are oracles in an `Env`: the results of the four git
  queries, the JSON parse of `package.json`, whether a given copy attempt
  throws (`fs.lstatSync`/`mkdirSync`/`cpSync`/`copyFileSync` I/O errors),
  the outcome of `spawn`, and the timestamp clock.
* The detached bash chain launched by `spawn` is not executed by `runSetup`
  (the code returns without waiting); it is recorded in `World.spawned` and
  its behaviour is modelled separately by `chainExec` / `scriptRun`, keyed by
  an exit-code oracle for each command string.
-/

namespace WorktreeSetup

/-- Filesystem paths as component lists (model of absolute path strings). -/
abbrev Path : Type := List String

/-- A filesystem node: a regular file with content, or a directory. -/
inductive FSNode : Type
  | file (content : String)
  | dir
deriving DecidableEq

/-- The filesystem: an association list from paths to nodes (first match wins). -/
abbrev FS : Type := List (Path × FSNode)

/-- Look a path up in the filesystem (first binding wins). -/
def lookupFS : FS → Path → Option FSNode
  | [], _ => none
  | (q, n) :: rest, p => if q = p then some n else lookupFS rest p

/-- Model of `fs.existsSync`. -/
def existsFS (fs : FS) (p : Path) : Bool := (lookupFS fs p).isSome

/-- Create or overwrite the node at a path (new binding shadows old ones). -/
def setFS (fs : FS) (p : Path) (n : FSNode) : FS := (p, n) :: fs

/-- Substring test on character lists (model of JavaScript `String.includes`). -/
def containsSub : List Char → List Char → Bool
  | [], needle => needle.isEmpty
  | c :: rest, needle => needle.isPrefixOf (c :: rest) || containsSub rest needle

/-- Model of `content.includes(needle)` on strings. -/
def containsStr (haystack needle : String) : Bool :=
  containsSub haystack.toList needle.toList

/-- Split a character list on `/` (accumulator holds the current segment,
reversed). -/
def splitPathAux : List Char → List Char → List String
  | [], acc => [String.mk acc.reverse]
  | c :: rest, acc =>
    if c = '/' then String.mk acc.reverse :: splitPathAux rest []
    else splitPathAux rest (c :: acc)

/-- Splitting a relative config path into components (model of how
`path.join(root, rel)` descends through `/`-separated segments of `rel`). -/
def splitPath (rel : String) : List String := splitPathAux rel.toList []

/-- Rendering a component path back to a string (for log/reason messages). -/
def joinPath (p : Path) : String := String.intercalate "/" p

/-! ## Worktree detection (`src/git.ts`) -/

/-- `WorktreeInfo` from `src/types.ts`. -/
structure WorktreeInfo : Type where
  worktreeRoot : Path
  mainRoot : Path
  isLinkedWorktree : Bool
deriving DecidableEq

/-- Results of the four git queries issued by `detectWorktree`, as returned by
`runGit` (trimmed stdout on success, a thrown error otherwise).  The three
path-valued results are modelled after `path.resolve(cwd, ·)` has been
applied, i.e. as absolute component paths. -/
structure GitEnv : Type where
  /-- `git rev-parse --show-superproject-working-tree` (empty when not in a submodule). -/
  superproject : Except String String
  /-- `git rev-parse --show-toplevel`, resolved against `cwd`. -/
  showToplevel : Except String Path
  /-- `git rev-parse --git-common-dir`, resolved against `cwd`. -/
  gitCommonDir : Except String Path
  /-- `git rev-parse --git-dir`, resolved against `cwd`. -/
  gitDir : Except String Path

/-- The body of the second `try` block of `detectWorktree`: the three path
queries; if any of them threw, the `catch` returns `null`. -/
def detectPaths :
    Except String Path → Except String Path → Except String Path → Option WorktreeInfo
  | Except.ok worktreeRoot, Except.ok gitCommonDir, Except.ok gitDir =>
    -- If gitDir equals gitCommonDir, we're in the main worktree
    let isLinkedWorktree : Bool := gitDir ≠ gitCommonDir
    -- Derive main worktree root from common git dir
    let mainRoot : Path :=
      if gitCommonDir.getLast? = some ".git" then gitCommonDir.dropLast
      else gitCommonDir
    some { worktreeRoot, mainRoot, isLinkedWorktree }
  | _, _, _ => none

/-- `detectWorktree` from `src/git.ts`: skip submodules (a failed submodule
probe continues detection), run the three path queries inside one `try` (any
failure means "not a git repository", hence `null`), then derive linkage and
the main worktree root. -/
def detectWorktree (g : GitEnv) : Option WorktreeInfo :=
  -- try { if (superproject) return null } catch { /- continue -/ }
  let submodule : Bool :=
    match g.superproject with
    | Except.ok s => s ≠ ""
    | Except.error _ => false
  if submodule then none
  else detectPaths g.showToplevel g.gitCommonDir g.gitDir

/-! ## Setup orchestration (`src/setup.ts`) -/

/-- `WorktreeSetupConfig` from `src/types.ts`. -/
structure WorktreeSetupConfig : Type where
  copy : Option (List String) := none
  run : Option (List String) := none
deriving DecidableEq

/-- The result shape returned by `runSetup` (`SetupResult` in `src/setup.ts`). -/
structure SetupResult : Type where
  performed : Bool
  skippedReason : Option String := none
  copiedFiles : Option (List String) := none
  ranCommands : Option (List String) := none
deriving DecidableEq

/-- A launched detached command chain: the command list, the worktree it runs
in, and the log file its combined output is redirected to. -/
structure SpawnRec : Type where
  commands : List String
  cwd : Path
  logPath : Path
deriving DecidableEq

/-- Mutable world state threaded through `runSetup`: the filesystem, a clock
counter for `new Date().toISOString()`, and the processes spawned so far. -/
structure World : Type where
  fs : FS
  tick : Nat := 0
  spawned : List SpawnRec := []
deriving DecidableEq

/-- Environment oracles for one `runSetup` invocation. -/
structure Env : Type where
  /-- Results of the git queries consumed by `detectWorktree`. -/
  git : GitEnv
  /-- `JSON.parse(pkg)` followed by `pkg.worktreeSetup ?? null`: `none` models
  both a parse failure (caught) and a missing `worktreeSetup` key. -/
  parseConfig : String → Option WorktreeSetupConfig
  /-- Whether the copy attempt for a given relative path throws an I/O error
  (from `lstatSync`/`mkdirSync`/`cpSync`/`copyFileSync`), and with which
  message.  In the source these calls run only after both `existsSync`
  checks have passed, so the oracle is consulted only there. -/
  copyErr : String → Option String
  /-- Outcome of `spawn('bash', ...)`: a pid, or the thrown error's message. -/
  spawnResult : Except String Nat
  /-- The timestamp string produced by the n-th `nowIso()` call. -/
  times : Nat → String

def LOG_FILE : String := ".worktree-setup.log"

def SUCCESS_TOKEN : String := "WORKTREE_SETUP_STATUS=success"

/-- `readConfig` from `src/setup.ts`. -/
def readConfig (env : Env) (fs : FS) (mainRoot : Path) : Option WorktreeSetupConfig :=
  let pkgPath := mainRoot ++ ["package.json"]
  match lookupFS fs pkgPath with
  | none => none
  | some FSNode.dir => none
  | some (FSNode.file content) => env.parseConfig content

/-- `fs.appendFileSync`: extend an existing file, or create it.  (Appending
to a path holding a directory throws in Node; that pathological case is left
as a no-op and is outside every claim.) -/
def appendFile (fs : FS) (p : Path) (data : String) : FS :=
  match lookupFS fs p with
  | some (FSNode.file c) => setFS fs p (FSNode.file (c ++ data))
  | some FSNode.dir => fs
  | none => setFS fs p (FSNode.file data)

/-- `appendLog` from `src/setup.ts`: one timestamped line per event. -/
def appendLog (env : Env) (w : World) (logPath : Path) (message : String) : World :=
  { w with
    fs := appendFile w.fs logPath ("[" ++ env.times w.tick ++ "] " ++ message ++ "\n")
    tick := w.tick + 1 }

/-- The ledger file's content (empty when the file is absent). -/
def ledgerContent (fs : FS) (logPath : Path) : String :=
  match lookupFS fs logPath with
  | some (FSNode.file c) => c
  | _ => ""

/-- `hasSuccessfulSetup` from `src/setup.ts`: the file exists and its content
includes the success token anywhere. -/
def hasSuccessfulSetup (fs : FS) (logPath : Path) : Bool :=
  match lookupFS fs logPath with
  | none => false
  | some FSNode.dir => false
  | some (FSNode.file content) => containsStr content SUCCESS_TOKEN

/-- `fs.mkdirSync(p, recursive := true)`: create every missing prefix of `p`
as a directory, leaving existing nodes untouched. -/
def mkdirp (fs : FS) (p : Path) : FS :=
  (List.range p.length).foldl
    (fun acc i =>
      let pre := p.take (i + 1)
      if existsFS acc pre then acc else setFS acc pre FSNode.dir)
    fs

/-- `fs.cpSync(src, dest, recursive := true)`: copy the whole subtree rooted
at `src` to `dest`. -/
def copyTree (fs : FS) (src dest : Path) : FS :=
  (fs.filterMap (fun e =>
      if src.isPrefixOf e.1 then some ((dest ++ e.1.drop src.length : Path), e.2) else none)).foldl
    (fun acc e => setFS acc e.1 e.2) fs

/-- `copyIfMissing` from `src/setup.ts`.  Returns the new filesystem and the
boolean the function returns, or the thrown error.  The error oracle sits
where the throwing calls sit in the source: after both existence checks. -/
def copyIfMissing (env : Env) (fs : FS) (src dest : Path) (rel : String) :
    Except String (FS × Bool) :=
  if ¬ existsFS fs src then Except.ok (fs, false)
  else if existsFS fs dest then Except.ok (fs, false)
  else
    match env.copyErr rel with
    | some e => Except.error e
    | none =>
      let fs1 := mkdirp fs dest.dropLast
      match lookupFS fs1 src with
      | some FSNode.dir => Except.ok (copyTree fs1 src dest, true)
      | some (FSNode.file c) => Except.ok (setFS fs1 dest (FSNode.file c), true)
      | none => Except.ok (fs1, true)

/-- Accumulator of the copy loop in `runSetup` (`copiedFiles`, `copyFailed`,
and the evolving world). -/
structure CopyState : Type where
  w : World
  copiedFiles : List String := []
  copyFailed : Bool := false
deriving DecidableEq

/-- The `for (const rel of config.copy ?? [])` loop of `runSetup`: per path,
attempt the copy, record the outcome in the ledger (destination-exists is
checked before missing-source when classifying a skip), and on a thrown
error set `copyFailed` and continue with the remaining paths. -/
def copyPhase (env : Env) (info : WorktreeInfo) (logPath : Path) :
    CopyState → List String → CopyState
  | s, [] => s
  | s, rel :: rest =>
    let src := info.mainRoot ++ splitPath rel
    let dest := info.worktreeRoot ++ splitPath rel
    match copyIfMissing env s.w.fs src dest rel with
    | Except.ok (fs', true) =>
      let w := appendLog env { s.w with fs := fs' } logPath ("copy: copied " ++ rel)
      copyPhase env info logPath { s with w, copiedFiles := s.copiedFiles ++ [rel] } rest
    | Except.ok (fs', false) =>
      let w :=
        if existsFS fs' dest then
          appendLog env { s.w with fs := fs' } logPath ("copy: skipped (exists) " ++ rel)
        else
          appendLog env { s.w with fs := fs' } logPath ("copy: skipped (missing source) " ++ rel)
      copyPhase env info logPath { s with w } rest
    | Except.error e =>
      let w := appendLog env s.w logPath ("copy: failed " ++ rel ++ " (" ++ e ++ ")")
      copyPhase env info logPath { s with w, copyFailed := true } rest

/-- The terminal failure token appended when some copy attempt threw. -/
def failedCopyToken : String := "WORKTREE_SETUP_STATUS=failed stage=copy"

/-- The terminal failure token appended when `spawn` itself threw. -/
def failedSpawnToken (e : String) : String :=
  "WORKTREE_SETUP_STATUS=failed stage=spawn error=" ++ e

/-- The failure sentinel the detached script echoes when the chain exits
non-zero (includes the failing exit code). -/
def failedRunToken (rc : Nat) : String :=
  "WORKTREE_SETUP_STATUS=failed stage=run exit_code=" ++ toString rc

/-- Body of `runSetup` after the five gates have passed (from the
`appendLog(logPath, 'setup start ...')` call onwards). -/
def setupMain (env : Env) (w : World) (info : WorktreeInfo)
    (config : WorktreeSetupConfig) : SetupResult × World :=
  let logPath := info.worktreeRoot ++ [LOG_FILE]
  let w1 := appendLog env w logPath ("setup start for " ++ joinPath info.worktreeRoot)
  let s := copyPhase env info logPath { w := w1 } (config.copy.getD [])
  if s.copyFailed then
    let w2 := appendLog env s.w logPath failedCopyToken
    ({ performed := false, skippedReason := some "Failed to copy one or more files" }, w2)
  else
    let commands := config.run.getD []
    if commands.length > 0 then
      let w2 := appendLog env s.w logPath
        ("run: launching " ++ toString commands.length ++ " command(s) in background")
      match env.spawnResult with
      | Except.ok pid =>
        let w3 := { w2 with
          spawned := w2.spawned ++ [{ commands, cwd := info.worktreeRoot, logPath : SpawnRec }] }
        let w4 := appendLog env w3 logPath ("run: background process started pid=" ++ toString pid)
        ({ performed := true, copiedFiles := some s.copiedFiles,
           ranCommands := some commands }, w4)
      | Except.error e =>
        let w3 := appendLog env w2 logPath (failedSpawnToken e)
        ({ performed := false, skippedReason := some "Failed to spawn run commands" }, w3)
    else
      let w2 := appendLog env s.w logPath SUCCESS_TOKEN
      ({ performed := true, copiedFiles := some s.copiedFiles, ranCommands := some commands }, w2)

/-- `runSetup` from `src/setup.ts`: the five ordered gates, then `setupMain`. -/
def runSetup (env : Env) (w : World) : SetupResult × World :=
  match detectWorktree env.git with
  | none => ({ performed := false, skippedReason := some "Not in a git repository" }, w)
  | some info =>
    if ¬ info.isLinkedWorktree then
      ({ performed := false, skippedReason := some "Not a linked worktree" }, w)
    else if ¬ existsFS w.fs info.mainRoot then
      ({ performed := false,
         skippedReason := some ("Main worktree not found at " ++ joinPath info.mainRoot) }, w)
    else
      match readConfig env w.fs info.mainRoot with
      | none =>
        ({ performed := false, skippedReason := some "No worktreeSetup config in package.json" }, w)
      | some config =>
        let logPath := info.worktreeRoot ++ [LOG_FILE]
        if hasSuccessfulSetup w.fs logPath then
          ({ performed := false, skippedReason := some "Already initialized" }, w)
        else setupMain env w info config

/-! ## The detached command chain (`src/setup.ts`, lines 157-162)

`runSetup` builds one bash script around `commands.join(' && ')`, spawns it
detached, and returns without waiting.  `chainExec` gives the semantics of
the `&&` chain for an exit-code oracle `exec`: the chain's exit code and the
list of commands that actually execute (in order, stopping at the first
non-zero exit). -/

/-- `commands.join(' && ')` — the single shell invocation the launcher builds. -/
def runChain (commands : List String) : String :=
  String.intercalate " && " commands

/-- Semantics of `c1 && c2 && ... && cn` under exit-code oracle `exec`:
`(exit code of the chain, commands executed in order)`. -/
def chainExec (exec : String → Nat) : List String → Nat × List String
  | [] => (0, [])
  | c :: rest =>
    let rc := exec c
    if rc = 0 then
      let r := chainExec exec rest
      (r.1, c :: r.2)
    else (rc, [c])

/-- The sentinel line the wrapper script echoes after the chain completes:
the success token iff the chain exited 0, otherwise the failure token
carrying the exit code (`if [ "$rc" -eq 0 ] ... else ... fi`). -/
def scriptSentinel (exec : String → Nat) (commands : List String) : String :=
  let rc := (chainExec exec commands).1
  if rc = 0 then SUCCESS_TOKEN else failedRunToken rc

/-- The log lines the detached script appends to the ledger: the start
banner and, after the chain completes, the sentinel.  (The chained commands'
own stdout/stderr also lands in the log and is not modelled.) -/
def scriptRun (exec : String → Nat) (commands : List String)
    (tsStart tsEnd : String) : List String :=
  ["[" ++ tsStart ++ "] command run start (" ++ toString commands.length ++ " command(s))",
   "[" ++ tsEnd ++ "] " ++ scriptSentinel exec commands]

/-! ## Concrete scenarios used by witnesses and counterexamples -/

/-- A concrete linked-worktree git environment for witnesses. -/
def gLinked : GitEnv :=
  { superproject := Except.ok ""
    showToplevel := Except.ok ["wt"]
    gitCommonDir := Except.ok ["main", ".git"]
    gitDir := Except.ok ["main", ".git", "worktrees", "wt"] }

/-- The worktree info `detectWorktree` computes for `gLinked`. -/
def infoLinked : WorktreeInfo :=
  { worktreeRoot := ["wt"], mainRoot := ["main"], isLinkedWorktree := true }

/-- A git environment for the primary (main) worktree: per-checkout git dir
equals the common git dir. -/
def gMain : GitEnv :=
  { superproject := Except.ok ""
    showToplevel := Except.ok ["main"]
    gitCommonDir := Except.ok ["main", ".git"]
    gitDir := Except.ok ["main", ".git"] }

/-- A git environment outside any repository: the path queries all throw. -/
def gNoRepo : GitEnv :=
  { superproject := Except.ok ""
    showToplevel := Except.error "fatal: not a git repository"
    gitCommonDir := Except.error "fatal: not a git repository"
    gitDir := Except.error "fatal: not a git repository" }

/-- A default environment around a git answer: a parsable manifest with an
empty `worktreeSetup` config, no copy errors, successful spawn. -/
def envOf (g : GitEnv) : Env :=
  { git := g
    parseConfig := fun _ => some {}
    copyErr := fun _ => none
    spawnResult := Except.ok 7
    times := fun n => toString n }

/-- An empty filesystem. -/
def wEmpty : World := { fs := [] }

/-- A filesystem where the main worktree exists but has no `package.json`. -/
def fsMainOnly : FS := [(["main"], FSNode.dir)]

/-- A filesystem with a main worktree and a parsable `package.json`. -/
def fsWithPkg : FS :=
  [(["main"], FSNode.dir), (["main", "package.json"], FSNode.file "pkg"), (["wt"], FSNode.dir)]

/-- `fsWithPkg` plus a ledger in the linked worktree that already carries the
success sentinel. -/
def fsInitialized : FS :=
  fsWithPkg ++ [(["wt", LOG_FILE], FSNode.file "[t] WORKTREE_SETUP_STATUS=success\n")]

/-- The world of the C3 counterexample: the linked worktree's ledger already
carries the success sentinel, but `package.json` has been removed from the
main worktree (a config change between calls). -/
def wConfigRemoved : World :=
  { fs := [(["main"], FSNode.dir), (["wt"], FSNode.dir),
           (["wt", LOG_FILE], FSNode.file "[t] WORKTREE_SETUP_STATUS=success\n")] }

/-- Config of the C1 scenario: two copy paths. -/
def cfgCopyFail : WorktreeSetupConfig := { copy := some ["a", "b"] }

/-- Environment of the C1 scenario: the copy attempt for `a` throws an I/O
error, the one for `b` succeeds. -/
def envCopyFail : Env :=
  { git := gLinked
    parseConfig := fun _ => some cfgCopyFail
    copyErr := fun rel => if rel = "a" then some "Error: EACCES" else none
    spawnResult := Except.ok 7
    times := fun n => toString n }

/-- World of the C1 scenario: both sources exist in the main worktree,
neither destination exists yet in the linked worktree. -/
def wCopyFail : World :=
  { fs := [(["main"], FSNode.dir), (["main", "package.json"], FSNode.file "pkg"),
           (["main", "a"], FSNode.file "A"), (["main", "b"], FSNode.file "B"),
           (["wt"], FSNode.dir)] }

/-- Config of the C2 scenario: one copy path `x`. -/
def cfgDestExists : WorktreeSetupConfig := { copy := some ["x"] }

/-- Environment of the C2 scenario (no copy ever throws). -/
def envDestExists : Env :=
  { git := gLinked
    parseConfig := fun _ => some cfgDestExists
    copyErr := fun _ => none
    spawnResult := Except.ok 7
    times := fun n => toString n }

/-- World of the C2 scenario: `x` does NOT exist in the main worktree, but a
destination `x` already exists in the linked worktree. -/
def wDestExists : World :=
  { fs := fsWithPkg ++ [(["wt", "x"], FSNode.file "old")] }

/-- Config of the C7 scenario: the only configured action is copying a file
whose source does not exist. -/
def cfgMissingSource : WorktreeSetupConfig := { copy := some ["nonexistent.txt"] }

/-- Environment of the C7 scenario. -/
def envMissingSource : Env :=
  { git := gLinked
    parseConfig := fun _ => some cfgMissingSource
    copyErr := fun _ => none
    spawnResult := Except.ok 7
    times := fun n => toString n }

/-- World of the C7 scenario. -/
def wMissingSource : World := { fs := fsWithPkg }

/-- Config of the C8 scenario: one run command. -/
def cfgRun : WorktreeSetupConfig := { run := some ["bun install"] }

/-- Environment of the C8 scenario with a successful spawn. -/
def envRun : Env :=
  { git := gLinked
    parseConfig := fun _ => some cfgRun
    copyErr := fun _ => none
    spawnResult := Except.ok 99
    times := fun n => toString n }

/-- Environment of the C8 scenario where `spawn` itself throws. -/
def envSpawnFail : Env := { envRun with spawnResult := Except.error "ENOENT" }

/-- The exit-code oracle of the spec's command-chain scenario:
`cmd-fail` exits 1, everything else exits 0. -/
def execDemo : String → Nat := fun c => if c = "cmd-fail" then 1 else 0

/-- World of the C5 witness: the linked worktree's ledger records a failed
prior attempt (start entry, a failed copy, the copy failure terminal token)
and no success sentinel. -/
def wFailedAttempt : World :=
  { fs := fsWithPkg ++
      [(["wt", LOG_FILE], FSNode.file
        "[T0] setup start for wt\n[T1] copy: failed a (Error: EACCES)\n[T2] WORKTREE_SETUP_STATUS=failed stage=copy\n")] }

/-! ## Helper lemmas -/

theorem lookupFS_setFS (fs : FS) (p q : Path) (n : FSNode) :
    lookupFS (setFS fs p n) q = if p = q then some n else lookupFS fs q := by
  simp [setFS, lookupFS]

theorem copyPhase_tick (env : Env) (info : WorktreeInfo) (logPath : Path) :
    ∀ (l : List String) (s : CopyState),
      (copyPhase env info logPath s l).w.tick = s.w.tick + l.length := by
  intro l
  induction l with
  | nil => intro s; simp [copyPhase]
  | cons rel rest ih =>
    intro s
    simp only [copyPhase]
    rcases copyIfMissing env s.w.fs (info.mainRoot ++ splitPath rel)
        (info.worktreeRoot ++ splitPath rel) rel with e | ⟨fs', b⟩
    · simp [ih, appendLog, Nat.add_comm, Nat.add_assoc, Nat.add_left_comm]
    · cases b
      · by_cases hd : existsFS fs' (info.worktreeRoot ++ splitPath rel) = true
        · simp [hd, ih, appendLog, Nat.add_comm, Nat.add_assoc, Nat.add_left_comm]
        · simp [hd, ih, appendLog, Nat.add_comm, Nat.add_assoc, Nat.add_left_comm]
      · simp [ih, appendLog, Nat.add_comm, Nat.add_assoc, Nat.add_left_comm]

theorem copyPhase_spawned (env : Env) (info : WorktreeInfo) (logPath : Path) :
    ∀ (l : List String) (s : CopyState),
      (copyPhase env info logPath s l).w.spawned = s.w.spawned := by
  intro l
  induction l with
  | nil => intro s; simp [copyPhase]
  | cons rel rest ih =>
    intro s
    simp only [copyPhase]
    rcases copyIfMissing env s.w.fs (info.mainRoot ++ splitPath rel)
        (info.worktreeRoot ++ splitPath rel) rel with e | ⟨fs', b⟩
    · simp [ih, appendLog]
    · cases b
      · by_cases hd : existsFS fs' (info.worktreeRoot ++ splitPath rel) = true
        · simp [hd, ih, appendLog]
        · simp [hd, ih, appendLog]
      · simp [ih, appendLog]

theorem lookupFS_appendFile_ne (fs : FS) (p q : Path) (data : String) (h : p ≠ q) :
    lookupFS (appendFile fs p data) q = lookupFS fs q := by
  unfold appendFile
  rcases hl : lookupFS fs p with _ | n
  · simp [lookupFS_setFS, h]
  · cases n <;> simp [lookupFS_setFS, h]

theorem lookupFS_appendLog_ne (env : Env) (w : World) (logPath q : Path)
    (message : String) (h : logPath ≠ q) :
    lookupFS (appendLog env w logPath message).fs q = lookupFS w.fs q := by
  simp [appendLog, lookupFS_appendFile_ne _ _ _ _ h]

theorem appendLog_spawned (env : Env) (w : World) (logPath : Path) (message : String) :
    (appendLog env w logPath message).spawned = w.spawned := rfl

/-- If two character lists diverge (neither is a prefix of the other), then
the first is not a prefix of the second extended by anything. -/
theorem isPrefixOf_append_eq_false (n t e : List Char)
    (h1 : n.isPrefixOf t = false) (h2 : t.isPrefixOf n = false) :
    n.isPrefixOf (t ++ e) = false := by
  induction n generalizing t with
  | nil => simp [List.isPrefixOf] at h1
  | cons a n' ih =>
    cases t with
    | nil => simp [List.isPrefixOf] at h2
    | cons b t' =>
      simp only [List.cons_append, List.isPrefixOf] at h1 h2 ⊢
      by_cases hab : a = b
      · subst hab
        simp only [beq_self_eq_true, Bool.true_and] at h1 h2 ⊢
        exact ih t' h1 h2
      · simp [beq_eq_false_iff_ne.2 hab]

/-- If no nonempty suffix of `p` can start an occurrence of `n` that reaches
into `e`, and `n` does not occur inside `p` itself, then occurrences of `n`
in `p ++ e` are exactly the occurrences in `e`. -/
theorem containsSub_append_of_clean (n : List Char) :
    ∀ p e : List Char,
      (∀ t ∈ p.tails, t ≠ [] → n.isPrefixOf (t ++ e) = false) →
      containsSub (p ++ e) n = containsSub e n := by
  intro p
  induction p with
  | nil => intro e _; rfl
  | cons c p' ih =>
    intro e h
    have hhead : n.isPrefixOf ((c :: p') ++ e) = false :=
      h (c :: p') (by rw [List.tails_cons]; exact List.mem_cons_self _ _) (by simp)
    have htail : ∀ t ∈ p'.tails, t ≠ [] → n.isPrefixOf (t ++ e) = false := by
      intro t ht hne
      refine h t ?_ hne
      rw [List.tails_cons]
      exact List.mem_cons_of_mem _ ht
    rw [List.cons_append] at hhead ⊢
    show (n.isPrefixOf (c :: (p' ++ e)) || containsSub (p' ++ e) n) = containsSub e n
    rw [hhead, Bool.false_or]
    exact ih e htail

/-- When all five gates pass, `runSetup` runs the post-gate body `setupMain`. -/
theorem runSetup_gates_pass (env : Env) (w : World) (info : WorktreeInfo)
    (config : WorktreeSetupConfig)
    (h1 : detectWorktree env.git = some info)
    (h2 : info.isLinkedWorktree = true)
    (h3 : existsFS w.fs info.mainRoot = true)
    (h4 : readConfig env w.fs info.mainRoot = some config)
    (h5 : hasSuccessfulSetup w.fs (info.worktreeRoot ++ [LOG_FILE]) = false) :
    runSetup env w = setupMain env w info config := by
  simp [runSetup, h1, h2, h3, h4, h5]

/-! ## Claims -/

/-- C9: `detectWorktree` computes `isLinkedWorktree` as true iff the
per-checkout git directory differs from the shared (common) git directory,
and derives `mainRoot` as the parent of the shared metadata directory when
its basename is `.git`, and as that directory itself otherwise. -/
theorem detectWorktree_linkage_and_mainRoot (g : GitEnv) (wt common gd : Path)
    (info : WorktreeInfo)
    (h1 : g.showToplevel = Except.ok wt)
    (h2 : g.gitCommonDir = Except.ok common)
    (h3 : g.gitDir = Except.ok gd)
    (h4 : detectWorktree g = some info) :
    (info.isLinkedWorktree = true ↔ gd ≠ common) ∧
    info.mainRoot = (if common.getLast? = some ".git" then common.dropLast else common) ∧
    info.worktreeRoot = wt := by
  unfold detectWorktree at h4
  rcases hs : g.superproject with e | s
  all_goals rw [hs] at h4
  · rw [h1, h2, h3] at h4
    simp only [detectPaths] at h4
    simp at h4
    subst h4
    refine ⟨by simp, rfl, rfl⟩
  · by_cases hse : s = ""
    · subst hse
      rw [h1, h2, h3] at h4
      simp only [detectPaths] at h4
      simp at h4
      subst h4
      refine ⟨by simp, rfl, rfl⟩
    · simp [hse] at h4

/-- C9 witness at a concrete repository layout. -/
theorem detectWorktree_linkage_and_mainRoot_witness :
    (infoLinked.isLinkedWorktree = true ↔
        (["main", ".git", "worktrees", "wt"] : Path) ≠ ["main", ".git"]) ∧
    infoLinked.mainRoot =
      (if (["main", ".git"] : Path).getLast? = some ".git"
       then (["main", ".git"] : Path).dropLast else ["main", ".git"]) ∧
    infoLinked.worktreeRoot = ["wt"] :=
  detectWorktree_linkage_and_mainRoot gLinked ["wt"] ["main", ".git"]
    ["main", ".git", "worktrees", "wt"] infoLinked rfl rfl rfl (by decide)

/-- C10: `detectWorktree` is total: every failing git query is caught and
mapped either to `null` (the three path queries, whose failure means "not a
git repository") or to continuing detection (the submodule probe), and the
function always returns either a `WorktreeInfo` or `null`. -/
theorem detectWorktree_total_on_git_failures (g : GitEnv) :
    (∀ e, g.showToplevel = Except.error e → detectWorktree g = none) ∧
    (∀ e, g.gitCommonDir = Except.error e → detectWorktree g = none) ∧
    (∀ e, g.gitDir = Except.error e → detectWorktree g = none) ∧
    (∀ e, g.superproject = Except.error e →
      detectWorktree g = detectWorktree { g with superproject := Except.ok "" }) ∧
    (detectWorktree g = none ∨ ∃ i, detectWorktree g = some i) := by
  refine ⟨?_, ?_, ?_, ?_, ?_⟩
  · intro e he
    unfold detectWorktree
    have hp : detectPaths g.showToplevel g.gitCommonDir g.gitDir = none := by
      rw [he]; rcases g.gitCommonDir <;> rcases g.gitDir <;> rfl
    rw [hp]
    simp
  · intro e he
    unfold detectWorktree
    have hp : detectPaths g.showToplevel g.gitCommonDir g.gitDir = none := by
      rw [he]; rcases g.showToplevel <;> rcases g.gitDir <;> rfl
    rw [hp]
    simp
  · intro e he
    unfold detectWorktree
    have hp : detectPaths g.showToplevel g.gitCommonDir g.gitDir = none := by
      rw [he]; rcases g.showToplevel <;> rcases g.gitCommonDir <;> rfl
    rw [hp]
    simp
  · intro e he
    unfold detectWorktree
    rw [he]
    rfl
  · rcases h : detectWorktree g with _ | i
    · exact Or.inl rfl
    · exact Or.inr ⟨i, rfl⟩

/-- C10 witness: concrete environments where each git query fails. -/
theorem detectWorktree_total_on_git_failures_witness :
    detectWorktree
        { superproject := Except.ok "", showToplevel := Except.error "fatal",
          gitCommonDir := Except.ok [], gitDir := Except.ok [] } = none ∧
    detectWorktree
        { superproject := Except.ok "", showToplevel := Except.ok [],
          gitCommonDir := Except.error "fatal", gitDir := Except.ok [] } = none ∧
    detectWorktree
        { superproject := Except.ok "", showToplevel := Except.ok [],
          gitCommonDir := Except.ok [], gitDir := Except.error "fatal" } = none ∧
    detectWorktree
        { superproject := Except.error "boom", showToplevel := Except.ok ["wt"],
          gitCommonDir := Except.ok ["main", ".git"],
          gitDir := Except.ok ["main", ".git", "worktrees", "wt"] }
      = detectWorktree
        { superproject := Except.ok "", showToplevel := Except.ok ["wt"],
          gitCommonDir := Except.ok ["main", ".git"],
          gitDir := Except.ok ["main", ".git", "worktrees", "wt"] } :=
  ⟨(detectWorktree_total_on_git_failures _).1 "fatal" rfl,
   (detectWorktree_total_on_git_failures _).2.1 "fatal" rfl,
   (detectWorktree_total_on_git_failures _).2.2.1 "fatal" rfl,
   (detectWorktree_total_on_git_failures _).2.2.2.1 "boom" rfl⟩

/-- C4: each of the five ordered gates (not-a-repo, not-linked,
main-root-missing, no-config, already-initialized) short-circuits `runSetup`
with `performed := false` and the corresponding reason, each conditional on
the earlier gates having passed, and returns the world unchanged: no ledger
entry, no copy, no command launch. -/
theorem runSetup_gate_skips_no_mutation (env : Env) (w : World) :
    (detectWorktree env.git = none →
      runSetup env w
        = ({ performed := false, skippedReason := some "Not in a git repository" }, w)) ∧
    (∀ info, detectWorktree env.git = some info → info.isLinkedWorktree = false →
      runSetup env w
        = ({ performed := false, skippedReason := some "Not a linked worktree" }, w)) ∧
    (∀ info, detectWorktree env.git = some info → info.isLinkedWorktree = true →
      existsFS w.fs info.mainRoot = false →
      runSetup env w
        = ({ performed := false,
             skippedReason := some ("Main worktree not found at " ++ joinPath info.mainRoot) }, w)) ∧
    (∀ info, detectWorktree env.git = some info → info.isLinkedWorktree = true →
      existsFS w.fs info.mainRoot = true →
      readConfig env w.fs info.mainRoot = none →
      runSetup env w
        = ({ performed := false,
             skippedReason := some "No worktreeSetup config in package.json" }, w)) ∧
    (∀ info config, detectWorktree env.git = some info → info.isLinkedWorktree = true →
      existsFS w.fs info.mainRoot = true →
      readConfig env w.fs info.mainRoot = some config →
      hasSuccessfulSetup w.fs (info.worktreeRoot ++ [LOG_FILE]) = true →
      runSetup env w
        = ({ performed := false, skippedReason := some "Already initialized" }, w)) := by
  refine ⟨?_, ?_, ?_, ?_, ?_⟩
  · intro h1
    simp [runSetup, h1]
  · intro info h1 h2
    simp [runSetup, h1, h2]
  · intro info h1 h2 h3
    simp [runSetup, h1, h2, h3]
  · intro info h1 h2 h3 h4
    simp [runSetup, h1, h2, h3, h4]
  · intro info config h1 h2 h3 h4 h5
    simp [runSetup, h1, h2, h3, h4, h5]

/-- C4 witness: all five gates at concrete inputs. -/
theorem runSetup_gate_skips_no_mutation_witness :
    runSetup (envOf gNoRepo) wEmpty
      = ({ performed := false, skippedReason := some "Not in a git repository" }, wEmpty) ∧
    runSetup (envOf gMain) wEmpty
      = ({ performed := false, skippedReason := some "Not a linked worktree" }, wEmpty) ∧
    runSetup (envOf gLinked) wEmpty
      = ({ performed := false,
           skippedReason := some ("Main worktree not found at " ++ joinPath ["main"]) }, wEmpty) ∧
    runSetup (envOf gLinked) { fs := fsMainOnly }
      = ({ performed := false,
           skippedReason := some "No worktreeSetup config in package.json" }, { fs := fsMainOnly }) ∧
    runSetup (envOf gLinked) { fs := fsInitialized }
      = ({ performed := false, skippedReason := some "Already initialized" }, { fs := fsInitialized }) :=
  ⟨(runSetup_gate_skips_no_mutation (envOf gNoRepo) wEmpty).1 (by decide),
   (runSetup_gate_skips_no_mutation (envOf gMain) wEmpty).2.1
     { worktreeRoot := ["main"], mainRoot := ["main"], isLinkedWorktree := false }
     (by decide) rfl,
   (runSetup_gate_skips_no_mutation (envOf gLinked) wEmpty).2.2.1 infoLinked (by decide) rfl rfl,
   (runSetup_gate_skips_no_mutation (envOf gLinked) { fs := fsMainOnly }).2.2.2.1 infoLinked
     (by decide) rfl rfl (by decide),
   (runSetup_gate_skips_no_mutation (envOf gLinked) { fs := fsInitialized }).2.2.2.2 infoLinked
     {} (by decide) rfl rfl (by decide) (by decide)⟩

/-- C3 counterexample: with the success sentinel in the ledger but the config
removed, `runSetup` reports `No worktreeSetup config in package.json`, not
`Already initialized` — so "returns reason already-initialized regardless of
any config changes" fails as stated (though it still performs nothing). -/
theorem success_ledger_config_removed_not_already_initialized :
    hasSuccessfulSetup wConfigRemoved.fs (["wt"] ++ [LOG_FILE]) = true ∧
    (runSetup (envOf gLinked) wConfigRemoved).1.skippedReason
      = some "No worktreeSetup config in package.json" ∧
    ¬ (runSetup (envOf gLinked) wConfigRemoved).1.skippedReason = some "Already initialized" := by
  decide

/-- C3 amended: once the ledger contains the success sentinel, every
invocation whose earlier gates pass — for ANY config still present, i.e.
regardless of how the config content changed between calls — returns
`performed := false` with reason `Already initialized` and leaves the world
untouched (copies nothing, launches nothing); if instead the config was
removed, the run is skipped one gate earlier with the no-config reason,
likewise performing nothing. -/
theorem runSetup_success_sentinel_idempotent (env : Env) (w : World)
    (info : WorktreeInfo) (config : WorktreeSetupConfig)
    (h1 : detectWorktree env.git = some info)
    (h2 : info.isLinkedWorktree = true)
    (h3 : existsFS w.fs info.mainRoot = true)
    (h4 : readConfig env w.fs info.mainRoot = some config)
    (h5 : hasSuccessfulSetup w.fs (info.worktreeRoot ++ [LOG_FILE]) = true) :
    runSetup env w = ({ performed := false, skippedReason := some "Already initialized" }, w) := by
  simp [runSetup, h1, h2, h3, h4, h5]

/-- C3 witness: a concrete initialized worktree, with a config (of any
content) still present. -/
theorem runSetup_success_sentinel_idempotent_witness :
    runSetup (envOf gLinked) { fs := fsInitialized }
      = ({ performed := false, skippedReason := some "Already initialized" },
         { fs := fsInitialized }) :=
  runSetup_success_sentinel_idempotent (envOf gLinked) { fs := fsInitialized }
    infoLinked {} (by decide) rfl rfl (by decide) (by decide)

/-- C1 counterexample: the copy attempt for `a` throws, yet the later
configured path `b` is still attempted — and indeed copied — before the
failure terminal token is appended and `performed := false` is returned.
The orchestrator therefore does NOT abort immediately after the first
unexpected copy error. -/
theorem copy_error_does_not_abort_remaining_paths :
    (runSetup envCopyFail wCopyFail).1
      = { performed := false, skippedReason := some "Failed to copy one or more files" } ∧
    lookupFS (runSetup envCopyFail wCopyFail).2.fs ["wt", "b"] = some (FSNode.file "B") ∧
    containsStr (ledgerContent (runSetup envCopyFail wCopyFail).2.fs (["wt"] ++ [LOG_FILE]))
      "copy: failed a (Error: EACCES)" = true ∧
    containsStr (ledgerContent (runSetup envCopyFail wCopyFail).2.fs (["wt"] ++ [LOG_FILE]))
      "copy: copied b" = true := by
  decide

/-- C1 amended: when a copy attempt raises an unexpected error, the loop
continues through the remaining configured paths (one ledger line per
configured path, so the copy phase advances the clock by exactly the number
of configured paths); only after the whole loop does the orchestrator append
the failure terminal token and return `performed := false` with the
copy-failure reason. -/
theorem runSetup_copy_error_processes_all_then_fails (env : Env) (w : World)
    (info : WorktreeInfo) (config : WorktreeSetupConfig)
    (h1 : detectWorktree env.git = some info)
    (h2 : info.isLinkedWorktree = true)
    (h3 : existsFS w.fs info.mainRoot = true)
    (h4 : readConfig env w.fs info.mainRoot = some config)
    (h5 : hasSuccessfulSetup w.fs (info.worktreeRoot ++ [LOG_FILE]) = false)
    (hfail : (copyPhase env info (info.worktreeRoot ++ [LOG_FILE])
        { w := appendLog env w (info.worktreeRoot ++ [LOG_FILE])
            ("setup start for " ++ joinPath info.worktreeRoot) }
        (config.copy.getD [])).copyFailed = true) :
    runSetup env w
      = ({ performed := false, skippedReason := some "Failed to copy one or more files" },
         appendLog env
           (copyPhase env info (info.worktreeRoot ++ [LOG_FILE])
             { w := appendLog env w (info.worktreeRoot ++ [LOG_FILE])
                 ("setup start for " ++ joinPath info.worktreeRoot) }
             (config.copy.getD [])).w
           (info.worktreeRoot ++ [LOG_FILE]) failedCopyToken) ∧
    (copyPhase env info (info.worktreeRoot ++ [LOG_FILE])
        { w := appendLog env w (info.worktreeRoot ++ [LOG_FILE])
            ("setup start for " ++ joinPath info.worktreeRoot) }
        (config.copy.getD [])).w.tick
      = w.tick + 1 + (config.copy.getD []).length := by
  constructor
  · rw [runSetup_gates_pass env w info config h1 h2 h3 h4 h5]
    simp [setupMain, hfail]
  · rw [copyPhase_tick]
    simp [appendLog, Nat.add_comm, Nat.add_assoc, Nat.add_left_comm]

/-- C1 amended witness: the concrete failing-copy scenario. -/
theorem runSetup_copy_error_processes_all_then_fails_witness :
    (runSetup envCopyFail wCopyFail).1
      = { performed := false, skippedReason := some "Failed to copy one or more files" } ∧
    (copyPhase envCopyFail infoLinked (["wt"] ++ [LOG_FILE])
        { w := appendLog envCopyFail wCopyFail (["wt"] ++ [LOG_FILE])
            ("setup start for " ++ joinPath ["wt"]) }
        ["a", "b"]).w.tick = wCopyFail.tick + 1 + 2 := by
  have h := runSetup_copy_error_processes_all_then_fails envCopyFail wCopyFail infoLinked
    cfgCopyFail (by decide) rfl rfl (by decide) (by decide) (by decide)
  exact ⟨by rw [h.1], h.2⟩

/-- C2 counterexample: for the path `x` the source is missing AND the
destination exists; the recorded outcome is `skipped (exists)`, not
`skipped (missing source)` — so "skipped_missing_source regardless of
destination state" fails as stated.  The destination is untouched. -/
theorem missing_source_existing_dest_records_exists :
    existsFS wDestExists.fs (["main"] ++ splitPath "x") = false ∧
    existsFS wDestExists.fs (["wt"] ++ splitPath "x") = true ∧
    containsStr (ledgerContent (runSetup envDestExists wDestExists).2.fs (["wt"] ++ [LOG_FILE]))
      "copy: skipped (exists) x" = true ∧
    containsStr (ledgerContent (runSetup envDestExists wDestExists).2.fs (["wt"] ++ [LOG_FILE]))
      "copy: skipped (missing source) x" = false ∧
    lookupFS (runSetup envDestExists wDestExists).2.fs ["wt", "x"] = some (FSNode.file "old") := by
  decide

/-- C2 amended: per configured copy path, if the destination already exists
the recorded outcome is `skipped (exists)` — even when the source is also
missing — and the step changes no filesystem node other than the ledger
file, so the destination is never overwritten or modified;
`skipped (missing source)` is recorded only when the copy did not happen and
the destination does not exist. -/
theorem copyPhase_step_classification (env : Env) (info : WorktreeInfo)
    (logPath : Path) (s : CopyState) (rel : String) (rest : List String) :
    (existsFS s.w.fs (info.worktreeRoot ++ splitPath rel) = true →
      copyPhase env info logPath s (rel :: rest)
        = copyPhase env info logPath
            { s with w := appendLog env s.w logPath ("copy: skipped (exists) " ++ rel) } rest ∧
      ∀ q, q ≠ logPath →
        lookupFS (appendLog env s.w logPath ("copy: skipped (exists) " ++ rel)).fs q
          = lookupFS s.w.fs q) ∧
    (existsFS s.w.fs (info.worktreeRoot ++ splitPath rel) = false →
      existsFS s.w.fs (info.mainRoot ++ splitPath rel) = false →
      copyPhase env info logPath s (rel :: rest)
        = copyPhase env info logPath
            { s with
              w := appendLog env s.w logPath ("copy: skipped (missing source) " ++ rel) } rest) := by
  constructor
  · intro hdest
    constructor
    · by_cases hsrc : existsFS s.w.fs (info.mainRoot ++ splitPath rel) = true
      · simp [copyPhase, copyIfMissing, hsrc, hdest]
      · simp [copyPhase, copyIfMissing, hsrc, hdest]
    · intro q hq
      exact lookupFS_appendLog_ne env s.w logPath q _ (Ne.symm hq)
  · intro hdest hsrc
    simp [copyPhase, copyIfMissing, hsrc, hdest]

/-- C2 amended witness: the dest-exists/source-missing step at concrete
inputs (classification, non-interference with the destination node), and a
missing-source step with no destination. -/
theorem copyPhase_step_classification_witness :
    copyPhase envDestExists infoLinked (["wt"] ++ [LOG_FILE]) { w := wDestExists } ["x"]
      = copyPhase envDestExists infoLinked (["wt"] ++ [LOG_FILE])
          { w := appendLog envDestExists wDestExists (["wt"] ++ [LOG_FILE])
              ("copy: skipped (exists) " ++ "x") } [] ∧
    lookupFS (appendLog envDestExists wDestExists (["wt"] ++ [LOG_FILE])
        ("copy: skipped (exists) " ++ "x")).fs ["wt", "x"]
      = lookupFS wDestExists.fs ["wt", "x"] ∧
    copyPhase envDestExists infoLinked (["wt"] ++ [LOG_FILE]) { w := { fs := fsWithPkg } } ["x"]
      = copyPhase envDestExists infoLinked (["wt"] ++ [LOG_FILE])
          { w := appendLog envDestExists { fs := fsWithPkg } (["wt"] ++ [LOG_FILE])
              ("copy: skipped (missing source) " ++ "x") } [] :=
  ⟨(((copyPhase_step_classification envDestExists infoLinked (["wt"] ++ [LOG_FILE])
      { w := wDestExists } "x" []).1 (by decide))).1,
   (((copyPhase_step_classification envDestExists infoLinked (["wt"] ++ [LOG_FILE])
      { w := wDestExists } "x" []).1 (by decide))).2 ["wt", "x"] (by decide),
   (copyPhase_step_classification envDestExists infoLinked (["wt"] ++ [LOG_FILE])
      { w := { fs := fsWithPkg } } "x" []).2 (by decide) (by decide)⟩

/-- C7: when all gates pass, the copy loop raised no error, and no run
commands are configured, `runSetup` appends the success token directly to
the ledger and returns `performed := true` (with the collected copied files
and the empty command list).  The witness shows a config whose only action
is a copy with a missing source still yields `performed := true`. -/
theorem runSetup_no_commands_appends_success (env : Env) (w : World)
    (info : WorktreeInfo) (config : WorktreeSetupConfig)
    (h1 : detectWorktree env.git = some info)
    (h2 : info.isLinkedWorktree = true)
    (h3 : existsFS w.fs info.mainRoot = true)
    (h4 : readConfig env w.fs info.mainRoot = some config)
    (h5 : hasSuccessfulSetup w.fs (info.worktreeRoot ++ [LOG_FILE]) = false)
    (hrun : config.run.getD [] = [])
    (hok : (copyPhase env info (info.worktreeRoot ++ [LOG_FILE])
        { w := appendLog env w (info.worktreeRoot ++ [LOG_FILE])
            ("setup start for " ++ joinPath info.worktreeRoot) }
        (config.copy.getD [])).copyFailed = false) :
    runSetup env w
      = ({ performed := true,
           copiedFiles := some (copyPhase env info (info.worktreeRoot ++ [LOG_FILE])
             { w := appendLog env w (info.worktreeRoot ++ [LOG_FILE])
                 ("setup start for " ++ joinPath info.worktreeRoot) }
             (config.copy.getD [])).copiedFiles,
           ranCommands := some [] },
         appendLog env
           (copyPhase env info (info.worktreeRoot ++ [LOG_FILE])
             { w := appendLog env w (info.worktreeRoot ++ [LOG_FILE])
                 ("setup start for " ++ joinPath info.worktreeRoot) }
             (config.copy.getD [])).w
           (info.worktreeRoot ++ [LOG_FILE]) SUCCESS_TOKEN) := by
  rw [runSetup_gates_pass env w info config h1 h2 h3 h4 h5]
  simp [setupMain, hok, hrun]

/-- C7 witness: missing copy source, no commands: `performed := true`, the
outcome is recorded as skipped (missing source), and the ledger now carries
the success sentinel. -/
theorem runSetup_no_commands_appends_success_witness :
    existsFS wMissingSource.fs (["main"] ++ splitPath "nonexistent.txt") = false ∧
    (runSetup envMissingSource wMissingSource).1
      = { performed := true, copiedFiles := some [], ranCommands := some [] } ∧
    hasSuccessfulSetup (runSetup envMissingSource wMissingSource).2.fs
      (["wt"] ++ [LOG_FILE]) = true ∧
    containsStr
      (ledgerContent (runSetup envMissingSource wMissingSource).2.fs (["wt"] ++ [LOG_FILE]))
      "copy: skipped (missing source) nonexistent.txt" = true := by
  have h := runSetup_no_commands_appends_success envMissingSource wMissingSource infoLinked
    cfgMissingSource (by decide) rfl rfl (by decide) (by decide) rfl (by decide)
  refine ⟨by decide, ?_, by decide, by decide⟩
  rw [h]
  rfl

/-- C8: with commands configured and a clean copy phase, on spawn success
`runSetup` records the detached chain and returns `performed := true`
immediately — the result is computed without consulting the commands' exit
codes at all (the chain's later behaviour lives in `chainExec`/`scriptRun`,
outside `runSetup`), so it cannot assert command success; if the spawn
itself fails, `runSetup` appends the stage=spawn failure token to the ledger
and returns `performed := false` with the spawn-failure reason, launching
nothing. -/
theorem runSetup_spawn_behaviour (env : Env) (w : World)
    (info : WorktreeInfo) (config : WorktreeSetupConfig)
    (h1 : detectWorktree env.git = some info)
    (h2 : info.isLinkedWorktree = true)
    (h3 : existsFS w.fs info.mainRoot = true)
    (h4 : readConfig env w.fs info.mainRoot = some config)
    (h5 : hasSuccessfulSetup w.fs (info.worktreeRoot ++ [LOG_FILE]) = false)
    (hok : (copyPhase env info (info.worktreeRoot ++ [LOG_FILE])
        { w := appendLog env w (info.worktreeRoot ++ [LOG_FILE])
            ("setup start for " ++ joinPath info.worktreeRoot) }
        (config.copy.getD [])).copyFailed = false)
    (hcmds : (config.run.getD []).length > 0) :
    (∀ pid, env.spawnResult = Except.ok pid →
      (runSetup env w).1
        = { performed := true,
            copiedFiles := some (copyPhase env info (info.worktreeRoot ++ [LOG_FILE])
              { w := appendLog env w (info.worktreeRoot ++ [LOG_FILE])
                  ("setup start for " ++ joinPath info.worktreeRoot) }
              (config.copy.getD [])).copiedFiles,
            ranCommands := some (config.run.getD []) } ∧
      (runSetup env w).2.spawned
        = w.spawned ++ [{ commands := config.run.getD [], cwd := info.worktreeRoot,
                          logPath := info.worktreeRoot ++ [LOG_FILE] }]) ∧
    (∀ e, env.spawnResult = Except.error e →
      (runSetup env w).1
        = { performed := false, skippedReason := some "Failed to spawn run commands" } ∧
      containsStr (failedSpawnToken e) "WORKTREE_SETUP_STATUS=failed stage=spawn" = true ∧
      (runSetup env w).2
        = appendLog env
            (appendLog env
              (copyPhase env info (info.worktreeRoot ++ [LOG_FILE])
                { w := appendLog env w (info.worktreeRoot ++ [LOG_FILE])
                    ("setup start for " ++ joinPath info.worktreeRoot) }
                (config.copy.getD [])).w
              (info.worktreeRoot ++ [LOG_FILE])
              ("run: launching " ++ toString (config.run.getD []).length
                ++ " command(s) in background"))
            (info.worktreeRoot ++ [LOG_FILE]) (failedSpawnToken e) ∧
      (runSetup env w).2.spawned = w.spawned) := by
  have hgates := runSetup_gates_pass env w info config h1 h2 h3 h4 h5
  constructor
  · intro pid hpid
    rw [hgates]
    constructor
    · simp [setupMain, hok, hpid, hcmds]
    · simp only [setupMain]
      rw [if_neg (by simp [hok]), if_pos hcmds, hpid]
      simp only [appendLog_spawned, copyPhase_spawned]
  · intro e he
    rw [hgates]
    refine ⟨?_, ?_, ?_, ?_⟩
    · simp [setupMain, hok, he, hcmds]
    · unfold failedSpawnToken
      rw [show containsStr ("WORKTREE_SETUP_STATUS=failed stage=spawn error=" ++ e)
            "WORKTREE_SETUP_STATUS=failed stage=spawn"
          = (containsSub
              ("WORKTREE_SETUP_STATUS=failed stage=spawn error=".toList ++ e.toList)
              "WORKTREE_SETUP_STATUS=failed stage=spawn".toList) from by
        simp [containsStr, String.data_append]]
      cases e
      simp [containsSub]
    · simp [setupMain, hok, he, hcmds]
    · simp only [setupMain]
      rw [if_neg (by simp [hok]), if_pos hcmds, he]
      simp only [appendLog_spawned, copyPhase_spawned]

/-- C8 witness: success and failure of the spawn at concrete inputs. -/
theorem runSetup_spawn_behaviour_witness :
    (runSetup envRun { fs := fsWithPkg }).1
      = { performed := true, copiedFiles := some [], ranCommands := some ["bun install"] } ∧
    (runSetup envRun { fs := fsWithPkg }).2.spawned
      = [{ commands := ["bun install"], cwd := ["wt"], logPath := ["wt"] ++ [LOG_FILE] }] ∧
    (runSetup envSpawnFail { fs := fsWithPkg }).1
      = { performed := false, skippedReason := some "Failed to spawn run commands" } ∧
    (runSetup envSpawnFail { fs := fsWithPkg }).2.spawned = [] := by
  have hok := (runSetup_spawn_behaviour envRun { fs := fsWithPkg } infoLinked cfgRun
    (by decide) rfl rfl (by decide) (by decide) (by decide) (by decide)).1 99 rfl
  have hfail := (runSetup_spawn_behaviour envSpawnFail { fs := fsWithPkg } infoLinked cfgRun
    (by decide) rfl rfl (by decide) (by decide) (by decide) (by decide)).2 "ENOENT" rfl
  exact ⟨hok.1, hok.2, hfail.1, hfail.2.2.2⟩

/-- The chain exits 0 iff every command in it exits 0. -/
theorem chainExec_eq_zero_iff (exec : String → Nat) :
    ∀ l : List String, ((chainExec exec l).1 = 0 ↔ ∀ c ∈ l, exec c = 0) := by
  intro l
  induction l with
  | nil => simp [chainExec]
  | cons c rest ih =>
    by_cases h : exec c = 0
    · simp [chainExec, h, ih]
    · simp [chainExec, h]

/-- If the chain exits 0, every command executed. -/
theorem chainExec_ran_of_zero (exec : String → Nat) :
    ∀ l : List String, (chainExec exec l).1 = 0 → (chainExec exec l).2 = l := by
  intro l
  induction l with
  | nil => intro _; rfl
  | cons c rest ih =>
    intro h
    by_cases hc : exec c = 0
    · have h2 : (chainExec exec rest).1 = 0 := by simpa [chainExec, hc] using h
      simp [chainExec, hc, ih h2]
    · simp [chainExec, hc] at h

/-- If the chain exits non-zero, the executed commands are exactly the
successful prefix plus the first failing command, whose exit code the chain
reports; nothing after it executes. -/
theorem chainExec_of_ne_zero (exec : String → Nat) :
    ∀ l : List String, (chainExec exec l).1 ≠ 0 →
      ∃ pre c post, l = pre ++ c :: post ∧ (∀ x ∈ pre, exec x = 0) ∧
        exec c = (chainExec exec l).1 ∧ (chainExec exec l).2 = pre ++ [c] := by
  intro l
  induction l with
  | nil => intro h; exact absurd rfl h
  | cons c rest ih =>
    intro h
    by_cases hc : exec c = 0
    · have h' : (chainExec exec rest).1 ≠ 0 := by
        simpa [chainExec, hc] using h
      obtain ⟨pre, d, post, heq, hpre, hd, hran⟩ := ih h'
      refine ⟨c :: pre, d, post, by simp [heq], ?_, ?_, ?_⟩
      · intro x hx
        rcases List.mem_cons.1 hx with rfl | hx
        · exact hc
        · exact hpre x hx
      · simpa [chainExec, hc] using hd
      · simp [chainExec, hc, hran]
    · exact ⟨[], c, rest, rfl, by simp, by simp [chainExec, hc], by simp [chainExec, hc]⟩

/-- A failure sentinel is never the success token (it is strictly longer). -/
theorem failedRunToken_ne_success (rc : Nat) : failedRunToken rc ≠ SUCCESS_TOKEN := by
  intro h
  have hlen : (failedRunToken rc).length = SUCCESS_TOKEN.length := by rw [h]
  rw [failedRunToken, String.length_append] at hlen
  have h49 : ("WORKTREE_SETUP_STATUS=failed stage=run exit_code=").length = 49 := rfl
  have h29 : SUCCESS_TOKEN.length = 29 := rfl
  omega

/-- C6: the launcher chains the configured commands in order with
must-all-succeed semantics: the chain exits 0 iff every command exits 0, in
which case all commands execute in order; otherwise exactly the successful
prefix plus the first failing command execute (later commands never run) and
the chain reports that command's exit code; after the chain completes the
script writes the success sentinel iff the exit code was 0, and otherwise a
failure sentinel carrying the failing exit code. -/
theorem chain_must_all_succeed_and_sentinel (exec : String → Nat) (commands : List String) :
    ((chainExec exec commands).1 = 0 ↔ ∀ c ∈ commands, exec c = 0) ∧
    ((chainExec exec commands).1 = 0 → (chainExec exec commands).2 = commands) ∧
    ((chainExec exec commands).1 ≠ 0 →
      ∃ pre c post, commands = pre ++ c :: post ∧ (∀ x ∈ pre, exec x = 0) ∧
        exec c = (chainExec exec commands).1 ∧
        (chainExec exec commands).2 = pre ++ [c]) ∧
    (scriptSentinel exec commands = SUCCESS_TOKEN ↔ (chainExec exec commands).1 = 0) ∧
    ((chainExec exec commands).1 ≠ 0 →
      scriptSentinel exec commands = failedRunToken (chainExec exec commands).1) := by
  refine ⟨chainExec_eq_zero_iff exec commands, chainExec_ran_of_zero exec commands,
    chainExec_of_ne_zero exec commands, ?_, ?_⟩
  · unfold scriptSentinel
    by_cases h : (chainExec exec commands).1 = 0
    · simp [h]
    · simp [h, failedRunToken_ne_success]
  · intro h
    unfold scriptSentinel
    simp [h]

/-- C6 witness: `run: ["cmd-ok", "cmd-fail", "cmd-ok2"]` stops after
`cmd-fail`, `cmd-ok2` never executes, and the failure sentinel carries exit
code 1. -/
theorem chain_must_all_succeed_and_sentinel_witness :
    (chainExec execDemo ["cmd-ok", "cmd-fail", "cmd-ok2"]).1 ≠ 0 ∧
    (∃ pre c post, ["cmd-ok", "cmd-fail", "cmd-ok2"] = pre ++ c :: post ∧
      (∀ x ∈ pre, execDemo x = 0) ∧
      execDemo c = (chainExec execDemo ["cmd-ok", "cmd-fail", "cmd-ok2"]).1 ∧
      (chainExec execDemo ["cmd-ok", "cmd-fail", "cmd-ok2"]).2 = pre ++ [c]) ∧
    scriptSentinel execDemo ["cmd-ok", "cmd-fail", "cmd-ok2"] = failedRunToken 1 :=
  ⟨by decide,
   (chain_must_all_succeed_and_sentinel execDemo ["cmd-ok", "cmd-fail", "cmd-ok2"]).2.2.1
     (by decide),
   (chain_must_all_succeed_and_sentinel execDemo ["cmd-ok", "cmd-fail", "cmd-ok2"]).2.2.2.2
     (by decide)⟩

/-- Occurrence analysis for a token in `p ++ e` when no nonempty suffix of
`p` is prefix-compatible with the token: the token occurs iff it occurs in
`e` alone. -/
theorem containsStr_append_clean (p e n : String)
    (hp : ∀ t ∈ p.toList.tails, t ≠ [] →
      (n.toList.isPrefixOf t = false ∧ t.isPrefixOf n.toList = false)) :
    containsStr (p ++ e) n = containsStr e n := by
  unfold containsStr
  rw [show (p ++ e).toList = p.toList ++ e.toList from by
    simp [String.toList, String.data_append]]
  apply containsSub_append_of_clean
  intro t ht hne
  exact isPrefixOf_append_eq_false _ _ _ (hp t ht hne).1 (hp t ht hne).2

/-- C5: a ledger whose content lacks the success sentinel never gates a
retry: `hasSuccessfulSetup` is false, so `runSetup` proceeds past the
already-initialized gate into the full post-gate pipeline `setupMain`
(start entry, every configured copy re-checked, configured commands
re-launched).  Moreover the orchestrator's own failure tokens cannot
accidentally satisfy the success-sentinel check: the copy failure token
does not contain the success token, and the spawn failure token contains it
only if the appended error message itself did. -/
theorem failed_attempt_does_not_block_retry (env : Env) (w : World)
    (info : WorktreeInfo) (config : WorktreeSetupConfig) (content : String)
    (h1 : detectWorktree env.git = some info)
    (h2 : info.isLinkedWorktree = true)
    (h3 : existsFS w.fs info.mainRoot = true)
    (h4 : readConfig env w.fs info.mainRoot = some config)
    (hledge : lookupFS w.fs (info.worktreeRoot ++ [LOG_FILE]) = some (FSNode.file content))
    (hno : containsStr content SUCCESS_TOKEN = false) :
    hasSuccessfulSetup w.fs (info.worktreeRoot ++ [LOG_FILE]) = false ∧
    runSetup env w = setupMain env w info config ∧
    containsStr failedCopyToken SUCCESS_TOKEN = false ∧
    (∀ e, containsStr e SUCCESS_TOKEN = false →
      containsStr (failedSpawnToken e) SUCCESS_TOKEN = false) := by
  have hs : hasSuccessfulSetup w.fs (info.worktreeRoot ++ [LOG_FILE]) = false := by
    unfold hasSuccessfulSetup
    rw [hledge]
    exact hno
  refine ⟨hs, runSetup_gates_pass env w info config h1 h2 h3 h4 hs, by decide, ?_⟩
  intro e he
  unfold failedSpawnToken
  rw [containsStr_append_clean _ _ _ (by decide)]
  exact he

/-- C5 witness: the concrete failed-attempt ledger does not block a retry. -/
theorem failed_attempt_does_not_block_retry_witness :
    hasSuccessfulSetup wFailedAttempt.fs (["wt"] ++ [LOG_FILE]) = false ∧
    runSetup (envOf gLinked) wFailedAttempt
      = setupMain (envOf gLinked) wFailedAttempt infoLinked {} ∧
    containsStr failedCopyToken SUCCESS_TOKEN = false ∧
    containsStr (failedSpawnToken "Error: spawn bash ENOENT") SUCCESS_TOKEN = false := by
  have h := failed_attempt_does_not_block_retry (envOf gLinked) wFailedAttempt infoLinked {}
    "[T0] setup start for wt\n[T1] copy: failed a (Error: EACCES)\n[T2] WORKTREE_SETUP_STATUS=failed stage=copy\n"
    (by decide) rfl rfl (by decide) (by decide) (by decide)
  exact ⟨h.1, h.2.1, h.2.2.1, h.2.2.2 "Error: spawn bash ENOENT" (by decide)⟩

end WorktreeSetup
